import Mathlib

/-!
# Verification of the Live-Trading-Simulation paper-trading engine

Shallow embedding of the repository's core simulation logic:

* `src/backend/paper_trading.py` — `PaperTrader.on_signal`, `PaperTrader.log_trade`,
  `PaperTrader.log_snapshot`, `PaperTrader.run_strategy`, `load_portfolio_state`,
  `save_portfolio_state`, `create_initial_state_file`, `PaperTrader.__init__`;
* `src/backend/backtest.py` — `simple_backtest`;
* `src/backend/strategies.py` — `rsi_strategy` (including the RSI computation it
  delegates to `ta.momentum.RSIIndicator`).

Python floats are modelled as rationals (`ℚ`); the float arithmetic performed by the
engine (add, mul, div on portfolio quantities) is modelled exactly.  Signals are the
integers `1` (buy), `-1` (sell), `0` (hold) exactly as in the source.
-/

/-- In-memory portfolio state of `PaperTrader`: `self.cash` and `self.position`
(src/backend/paper_trading.py lines 113-114). -/
structure PortState where
  cash : ℚ
  position : ℚ
deriving DecidableEq, Repr

/-- Trade direction strings `"buy"` / `"sell"` used by both engines. -/
inductive TradeType where
  | buy
  | sell
deriving DecidableEq, Repr

/-- The trade record appended to `self.trades` by `on_signal` and to the
`trades` list by `simple_backtest` (only the fields both records share and the
claims compare: type, price, shares). -/
structure TradeRec where
  trade_type : TradeType
  price : ℚ
  shares : ℚ
deriving DecidableEq, Repr

/-- The row handed to the ledger by `PaperTrader.log_trade`
(src/backend/paper_trading.py lines 142-158): it snapshots `self.cash` and
`self.position` as they are at the moment `log_trade` is called. -/
structure LedgerTrade where
  trade_type : TradeType
  price : ℚ
  shares : ℚ
  cash_after : ℚ
  position_after : ℚ
deriving DecidableEq, Repr

/-- The row handed to the ledger by `PaperTrader.log_snapshot`
(src/backend/paper_trading.py lines 160-175). -/
structure Snapshot where
  cash : ℚ
  position_shares : ℚ
  last_price : ℚ
  equity : ℚ
deriving DecidableEq, Repr

/-- Everything one call of `PaperTrader.on_signal` produces: the new in-memory
state, the optional trade appended to `self.trades`, the optional ledger row
from `log_trade`, and the snapshot from `log_snapshot`. -/
structure OnSignalResult where
  state : PortState
  trade : Option TradeRec
  ledger : Option LedgerTrade
  snapshot : Snapshot
deriving DecidableEq, Repr

/-- `PaperTrader.on_signal` (src/backend/paper_trading.py lines 177-233), after
the price/signal unwrapping: the two transition branches, the trade logging and
the per-call equity snapshot.

* Buy while flat (lines 191-202): `shares = self.cash / price if price > 0 else 0.0`,
  then `self.position = shares; self.cash = 0.0`; `log_trade` runs after both
  assignments, so its `cash_after`/`position_after` are the post-transition values.
* Sell while long (lines 204-216): `self.cash = shares * price`, `log_trade` runs,
  and only then `self.position = 0.0` — so the ledger row's `position_after` is the
  pre-sale share count.
* Every call ends with `equity = self.cash + self.position * price` and a
  `log_snapshot` (lines 218-223). -/
def on_signal (s : PortState) (signal : Int) (price : ℚ) : OnSignalResult :=
  if signal = 1 ∧ s.position = 0 then
    let shares : ℚ := if 0 < price then s.cash / price else 0
    let s' : PortState := { cash := 0, position := shares }
    { state := s'
      trade := some { trade_type := .buy, price := price, shares := shares }
      ledger := some { trade_type := .buy, price := price, shares := shares,
                       cash_after := s'.cash, position_after := s'.position }
      snapshot := { cash := s'.cash, position_shares := s'.position,
                    last_price := price, equity := s'.cash + s'.position * price } }
  else if signal = -1 ∧ 0 < s.position then
    let shares : ℚ := s.position
    let proceeds : ℚ := shares * price
    let s' : PortState := { cash := proceeds, position := 0 }
    { state := s'
      trade := some { trade_type := .sell, price := price, shares := shares }
      ledger := some { trade_type := .sell, price := price, shares := shares,
                       cash_after := proceeds, position_after := shares }
      snapshot := { cash := s'.cash, position_shares := s'.position,
                    last_price := price, equity := s'.cash + s'.position * price } }
  else
    { state := s
      trade := none
      ledger := none
      snapshot := { cash := s.cash, position_shares := s.position,
                    last_price := price, equity := s.cash + s.position * price } }

/-- Iterating `PaperTrader.on_signal` over a sequence of (signal, close) pairs,
as `run_strategy` does bar by bar; returns the final state and the trades
appended to `self.trades` in order. -/
def on_signal_run (s : PortState) : List (Int × ℚ) → PortState × List TradeRec
  | [] => (s, [])
  | (sig, price) :: rest =>
    let r := on_signal s sig price
    let t := on_signal_run r.state rest
    (t.1, r.trade.toList ++ t.2)

/-- Result of `simple_backtest` (src/backend/backtest.py): the final `cash` and
`position`, the `trades` list, and the per-bar `equity_curve`. -/
structure BacktestResult where
  cash : ℚ
  position : ℚ
  trades : List TradeRec
  equity_curve : List ℚ
deriving DecidableEq, Repr

/-- The `for i, sig in enumerate(sig_arr)` loop of `simple_backtest`
(src/backend/backtest.py lines 36-50), over already-zipped (signal, close)
pairs.  NOTE: the Python buy branch divides by `price` unguarded; at
`price = 0` Python raises `ZeroDivisionError`, while this model (used by the
theorems only at nonzero prices) returns `cash / 0 = 0`. -/
def simple_backtest_loop (cash position : ℚ) : List (Int × ℚ) → BacktestResult
  | [] => { cash := cash, position := position, trades := [], equity_curve := [] }
  | (sig, price) :: rest =>
    if sig = 1 ∧ position = 0 then
      let position' := cash / price
      let r := simple_backtest_loop 0 position' rest
      { r with trades := { trade_type := .buy, price := price, shares := position' } :: r.trades,
               equity_curve := (0 + position' * price) :: r.equity_curve }
    else if sig = -1 ∧ 0 < position then
      let cash' := position * price
      let r := simple_backtest_loop cash' 0 rest
      { r with trades := { trade_type := .sell, price := price, shares := position } :: r.trades,
               equity_curve := (cash' + 0 * price) :: r.equity_curve }
    else
      let r := simple_backtest_loop cash position rest
      { r with equity_curve := (cash + position * price) :: r.equity_curve }

/-- `simple_backtest(df, initial_capital)`: starts from `cash = initial_capital`,
`position = 0.0` (src/backend/backtest.py lines 28-29). -/
def simple_backtest (initial_capital : ℚ) (bars : List (Int × ℚ)) : BacktestResult :=
  simple_backtest_loop initial_capital 0 bars

/-- The fully-allocated invariant from the spec: `cash == 0 OR position_shares == 0`. -/
def fully_allocated (s : PortState) : Prop :=
  s.cash = 0 ∨ s.position = 0

instance (s : PortState) : Decidable (fully_allocated s) := by
  unfold fully_allocated; infer_instance

/-- One iteration of `run_strategy`'s bar loop (src/backend/paper_trading.py
lines 256-273): it calls `on_signal` — which already logs one snapshot — and
then logs a second snapshot itself with the recomputed
`equity = self.cash + self.position * price` (lines 265-271).  Returns the
final state and every snapshot the ledger receives, in order. -/
def run_strategy_loop (s : PortState) : List (Int × ℚ) → PortState × List Snapshot
  | [] => (s, [])
  | (sig, price) :: rest =>
    let r := on_signal s sig price
    let extra : Snapshot := { cash := r.state.cash, position_shares := r.state.position,
                              last_price := price,
                              equity := r.state.cash + r.state.position * price }
    let t := run_strategy_loop r.state rest
    (t.1, r.snapshot :: extra :: t.2)

/-!
## RSI strategy (src/backend/strategies.py lines 18-43)

`rsi_strategy` computes `ta.momentum.RSIIndicator(close, window=period).rsi()`.
The `ta` library computes: `diff = close.diff(1)`;
`up = diff.where(diff > 0, 0.0)`; `down = -diff.where(diff < 0, 0.0)` (note the
leading NaN of `diff` becomes `0.0` in both); then Wilder smoothing
`up.ewm(alpha=1/window, min_periods=window, adjust=False).mean()` and likewise
for `down`; finally `RSI = 100` where the smoothed down-move is zero, else
`100 - 100/(1 + up_ewm/down_ewm)`.  With `min_periods = window` the output is
NaN until `window` observations have been seen, i.e. for indices `< window - 1`.
NaN is modelled as `none`.
-/

/-- `diff.where(diff > 0, 0.0)`: per-bar upward move, `0` at index 0. -/
def up_moves (closes : List ℚ) : List ℚ :=
  match closes with
  | [] => []
  | _ :: _ => 0 :: (closes.zip closes.tail).map fun p => max (p.2 - p.1) 0

/-- `-diff.where(diff < 0, 0.0)`: per-bar downward move, `0` at index 0. -/
def down_moves (closes : List ℚ) : List ℚ :=
  match closes with
  | [] => []
  | _ :: _ => 0 :: (closes.zip closes.tail).map fun p => max (p.1 - p.2) 0

/-- `Series.ewm(alpha=a, adjust=False).mean()`: `y₀ = x₀`,
`yₜ = (1 - a) * yₜ₋₁ + a * xₜ`. -/
def ewm_alpha (a : ℚ) : List ℚ → List ℚ
  | [] => []
  | x :: xs => List.scanl (fun acc v => (1 - a) * acc + a * v) x xs

/-- The RSI value at bar `i` (`none` = NaN): NaN while fewer than `period`
observations have accumulated (`min_periods = period` over a NaN-free input
series), else the `ta`-library formula. -/
def rsi_at (closes : List ℚ) (period : ℕ) (i : ℕ) : Option ℚ :=
  if closes.length ≤ i ∨ i + 1 < period then none
  else
    let eu := (ewm_alpha ((1 : ℚ) / period) (up_moves closes)).getD i 0
    let ed := (ewm_alpha ((1 : ℚ) / period) (down_moves closes)).getD i 0
    if ed = 0 then some 100 else some (100 - 100 / (1 + eu / ed))

/-- The threshold assignments of `rsi_strategy` (src/backend/strategies.py
lines 27-29): `signal = 0`, then `1` where `rsi <= oversold`, then `-1` where
`rsi >= overbought` (the later assignment wins); NaN compares false in pandas,
so a NaN RSI keeps `0`. -/
def threshold_raw_signal (r : Option ℚ) : Int :=
  match r with
  | none => 0
  | some v =>
    let s1 : Int := if v ≤ 30 then 1 else 0
    if 70 ≤ v then -1 else s1

/-- The per-bar signal column of `rsi_strategy` before its final adjustment. -/
def rsi_raw_signals (closes : List ℚ) : List Int :=
  (List.range closes.length).map fun i => threshold_raw_signal (rsi_at closes 14 i)

/-- `rsi_strategy` (src/backend/strategies.py lines 18-43) with the default
`period=14, overbought=70, oversold=30`: the threshold signals, then the
special case of lines 34-42 — if the first nonzero signal in the series is a
Sell (`-1`) and it is not at index 0, the signal one bar earlier is forcibly
set to Buy (`1`). -/
def rsi_strategy (closes : List ℚ) : List Int :=
  match (rsi_raw_signals closes).findIdx? (fun s => s != 0) with
  | none => rsi_raw_signals closes
  | some k =>
    if (rsi_raw_signals closes).getD k 0 = -1 ∧ 1 ≤ k
      then (rsi_raw_signals closes).set (k - 1) 1
      else rsi_raw_signals closes

/-- The spec's threshold rule, written from the spec's words: Buy when the
14-period RSI is ≤ 30, Sell when it is ≥ 70, Hold otherwise, and Hold whenever
the RSI is undefined (warm-up/NaN).  Used only to compare `rsi_strategy`
against the specification. -/
def spec_threshold_signal (r : Option ℚ) : Int :=
  match r with
  | none => 0
  | some v => if v ≤ 30 then 1 else if 70 ≤ v then -1 else 0

/-- Is bar `i` the bar `rsi_strategy` overwrites with a forced Buy?  True iff
the first nonzero threshold signal sits at bar `i + 1` and is a Sell. -/
def forced_buy_bar (closes : List ℚ) (i : ℕ) : Bool :=
  match (rsi_raw_signals closes).findIdx? (fun s => s != 0) with
  | none => false
  | some k => decide ((rsi_raw_signals closes).getD k 0 = -1) && decide (i + 1 = k)

/-- Fourteen strictly increasing closes: every move is a gain, so the smoothed
down-move is zero and the RSI is 100 as soon as it is defined (bar 13). -/
def rsi_cex_closes : List ℚ := [1, 2, 3, 4, 5, 6, 7, 8, 9, 10, 11, 12, 13, 14]

/-!
## Durable state store and engine effects (src/backend/paper_trading.py)
-/

/-- The fields of a parsed state file that `PaperTrader.__init__` consumes:
`state.get("cash", default)` and `state.get("position", default)` — either may
be missing (`none`). -/
structure StateData where
  cash : Option ℚ
  position : Option ℚ
deriving DecidableEq, Repr

/-- Contents of the per-key JSON state file path. -/
inductive FileContent where
  | absent
  | corrupt
  | valid (d : StateData)
deriving DecidableEq, Repr

/-- `load_portfolio_state` (src/backend/paper_trading.py lines 23-33): returns
`None` when the file does not exist; wraps the read and `json.load` in a
catch-all that logs and returns `None`, so an unparsable file is treated as
absent and no exception escapes (the function is total and `Option`-valued). -/
def load_portfolio_state : FileContent → Option StateData
  | .absent => none
  | .corrupt => none
  | .valid d => some d

/-- `create_initial_state_file` (src/backend/paper_trading.py lines 70-106),
success path: a no-op when the file already exists, otherwise writes a fresh
state with `cash = initial_cash`, `position = 0.0`. -/
def create_initial_state_file (file : FileContent) (initial_cash : ℚ) : FileContent :=
  match file with
  | .absent => .valid { cash := some initial_cash, position := some 0 }
  | f => f

/-- Externally visible side effects of the engine, used to state what an
unknown strategy does and does not touch. -/
inductive EngineEffect where
  | state_file_read
  | state_file_create
  | db_write
  | bar_processed
deriving DecidableEq, Repr

/-- `PaperTrader.__init__` with the default `resume_from_json=True`
(src/backend/paper_trading.py lines 109-140): load the state file (a read
happens whenever the file exists); on a loaded state adopt its `cash` and
`position` with the in-memory defaults as fallbacks; otherwise start from
`cash = initial_cash, position = 0.0` and create the initial file if missing.
Returns the initial in-memory state, the resulting file contents, and the
file-system effects in order. -/
def paper_trader_init (initial_cash : ℚ) (file : FileContent) :
    PortState × FileContent × List EngineEffect :=
  let read_effs : List EngineEffect := if file = .absent then [] else [.state_file_read]
  match load_portfolio_state file with
  | some d =>
    ({ cash := d.cash.getD initial_cash, position := d.position.getD 0 }, file, read_effs)
  | none =>
    let create_effs : List EngineEffect := if file = .absent then [.state_file_create] else []
    ({ cash := initial_cash, position := 0 }, create_initial_state_file file initial_cash,
     read_effs ++ create_effs)

/-- The dispatch and bar loop of `PaperTrader.run_strategy`
(src/backend/paper_trading.py lines 249-273) at the level of effects: an
unrecognized strategy name raises `ValueError("Unknown strategy")` before the
loop, so no bar is processed and no ledger row is written; a known strategy
processes every bar, writing to the database as it goes. -/
def run_strategy_effects (strategy : String) (nbars : ℕ) : Except String (List EngineEffect) :=
  if strategy = "sma_crossover" ∨ strategy = "rsi" then
    .ok ((List.range nbars).flatMap fun _ => [.bar_processed, .db_write, .db_write])
  else
    .error "Unknown strategy"

/-- The `/api/run_strategy` engine path (src/backend/api.py lines 122-127):
construct the `PaperTrader` — which touches the state file — and then call
`run_strategy`, which validates the strategy name. -/
def run_engine (strategy : String) (initial_cash : ℚ) (file : FileContent) (nbars : ℕ) :
    Except String Unit × List EngineEffect :=
  let init := paper_trader_init initial_cash file
  match run_strategy_effects strategy nbars with
  | .ok effs => (.ok (), init.2.2 ++ effs)
  | .error e => (.error e, init.2.2)

/-- Abstract view of the file system around one state-file path: the durable
target file and whether the `mkstemp` temporary currently exists. -/
structure StoreFs where
  target : FileContent
  tmp_exists : Bool
deriving DecidableEq, Repr

/-- The payload `save_portfolio_state` serializes (src/backend/paper_trading.py
lines 43-51), restricted to the fields a later resume reads back. -/
structure StatePayload where
  cash : ℚ
  position : ℚ
  last_price : Option ℚ
  equity : ℚ
deriving DecidableEq, Repr

/-- `save_portfolio_state` (src/backend/paper_trading.py lines 35-68) with the
outcome of the write/fsync/replace sequence injected as `write_ok`: on success
the temporary is renamed onto the target and `True` is returned; on any
exception the handler removes the temporary, leaves the target untouched, and
returns `False` instead of re-raising. -/
def save_portfolio_state (payload : StatePayload) (fs : StoreFs) (write_ok : Bool) :
    Bool × StoreFs :=
  if write_ok then
    (true, { target := .valid { cash := some payload.cash, position := some payload.position },
             tmp_exists := false })
  else
    (false, { target := fs.target, tmp_exists := false })

/-- `on_signal` followed by its persistence tail (src/backend/paper_trading.py
lines 218-233): the transition runs first, then `save_portfolio_state` is
called on the new state; a failed save only triggers a printed warning. -/
def on_signal_persist (s : PortState) (sig : Int) (price : ℚ) (fs : StoreFs)
    (write_ok : Bool) : PortState × Bool × StoreFs :=
  let r := on_signal s sig price
  let payload : StatePayload := { cash := r.state.cash, position := r.state.position,
                                  last_price := some price, equity := r.snapshot.equity }
  let save := save_portfolio_state payload fs write_ok
  (r.state, save.1, save.2)

/-! ## Theorems -/

theorem on_signal_fully_allocated (s : PortState) (sig : Int) (price : ℚ)
    (h : fully_allocated s) : fully_allocated (on_signal s sig price).state := by
  unfold on_signal
  split_ifs
  · exact Or.inl rfl
  · exact Or.inl rfl
  · exact Or.inr rfl
  · exact h

theorem on_signal_run_fully_allocated (bars : List (Int × ℚ)) :
    ∀ s : PortState, fully_allocated s → fully_allocated (on_signal_run s bars).1 := by
  induction bars with
  | nil => exact fun s h => h
  | cons b rest ih =>
    intro s h
    obtain ⟨sig, price⟩ := b
    exact ih _ (on_signal_fully_allocated s sig price h)

theorem simple_backtest_loop_fully_allocated (bars : List (Int × ℚ)) :
    ∀ cash position : ℚ, (cash = 0 ∨ position = 0) →
      ((simple_backtest_loop cash position bars).cash = 0 ∨
        (simple_backtest_loop cash position bars).position = 0) := by
  induction bars with
  | nil => exact fun c p h => h
  | cons b rest ih =>
    intro c p h
    obtain ⟨sig, price⟩ := b
    unfold simple_backtest_loop
    split_ifs
    · exact ih 0 (c / price) (Or.inl rfl)
    · exact ih (p * price) 0 (Or.inr rfl)
    · exact ih c p h

/-- **C2** (confirmed): starting from the initial state
`cash = initial_cash, position = 0`, after every call of the transition
function — any prefix of any (signal, price) trace, for `PaperTrader.on_signal`
and for each iteration of `simple_backtest`'s loop — the portfolio satisfies
`cash = 0 ∨ position_shares = 0`: it is always Flat or Long, never both.
(Quantifying over every trace covers every intermediate state, since each
prefix is itself a trace.) -/
theorem state_exclusivity (c0 : ℚ) (steps : List (Int × ℚ)) :
    fully_allocated (on_signal_run { cash := c0, position := 0 } steps).1 ∧
    ((simple_backtest c0 steps).cash = 0 ∨ (simple_backtest c0 steps).position = 0) :=
  ⟨on_signal_run_fully_allocated steps { cash := c0, position := 0 } (Or.inr rfl),
   simple_backtest_loop_fully_allocated steps c0 0 (Or.inr rfl)⟩

/-- **C1 (amended)**: value conservation
`cash_before + position_before * price = cash_after + position_after * price`
holds for every transition of `PaperTrader.on_signal` and of
`simple_backtest`'s loop — buy while flat, sell while long, or no-op, for every
signal — from every state satisfying the fully-allocated invariant (all
engine-reachable states do, by `state_exclusivity`), **provided the bar's close
price is positive**.  At a non-positive price a buy-while-flat zeroes the cash
without acquiring shares, and value is not conserved
(`value_not_conserved_at_zero_price`). -/
theorem value_conservation (s : PortState) (sig : Int) (price : ℚ)
    (hs : fully_allocated s) (hp : 0 < price) :
    (on_signal s sig price).state.cash + (on_signal s sig price).state.position * price
      = s.cash + s.position * price ∧
    (simple_backtest_loop s.cash s.position [(sig, price)]).cash
        + (simple_backtest_loop s.cash s.position [(sig, price)]).position * price
      = s.cash + s.position * price := by
  have hpne : price ≠ 0 := ne_of_gt hp
  constructor
  · unfold on_signal
    rw [if_pos hp]
    split_ifs with h1 h2
    · show (0 : ℚ) + s.cash / price * price = s.cash + s.position * price
      rw [h1.2, div_mul_cancel₀ _ hpne]
      ring
    · have hc : s.cash = 0 := hs.resolve_right (ne_of_gt h2.2)
      show s.position * price + (0 : ℚ) * price = s.cash + s.position * price
      rw [hc]
      ring
    · rfl
  · unfold simple_backtest_loop
    split_ifs with h1 h2
    · show (0 : ℚ) + s.cash / price * price = s.cash + s.position * price
      rw [h1.2, div_mul_cancel₀ _ hpne]
      ring
    · have hc : s.cash = 0 := hs.resolve_right (ne_of_gt h2.2)
      show s.position * price + (0 : ℚ) * price = s.cash + s.position * price
      rw [hc]
      ring
    · rfl

theorem value_conservation_witness :
    ((on_signal { cash := 100, position := 0 } 1 4).state.cash
        + (on_signal { cash := 100, position := 0 } 1 4).state.position * 4
      = (100 : ℚ) + 0 * 4) ∧
    ((simple_backtest_loop 100 0 [(1, 4)]).cash
        + (simple_backtest_loop 100 0 [(1, 4)]).position * 4
      = (100 : ℚ) + 0 * 4) :=
  value_conservation { cash := 100, position := 0 } 1 4 (Or.inr rfl) (by norm_num)

/-- **C1 counterexample**: the claim quantifies over every price, but at
`price = 0` a buy while flat (cash 1000) ends with cash 0 and position 0:
`cash_before + position_before * price = 1000` while
`cash_after + position_after * price = 0`. -/
theorem value_not_conserved_at_zero_price :
    (on_signal { cash := 1000, position := 0 } 1 0).state.cash
        + (on_signal { cash := 1000, position := 0 } 1 0).state.position * 0
      ≠ (1000 : ℚ) + 0 * 0 := by
  norm_num [on_signal]

/-- **C3** (code bug): on a Buy signal in the Flat state with `price = 0`,
`on_signal` does not fail with `InvalidPriceError`: no such error exists in the
code.  Instead the branch `shares = self.cash / price if price > 0 else 0.0`
yields 0 shares, after which `self.cash = 0.0` unconditionally wipes the cash,
a zero-share "buy" trade is appended and logged, and the state changes from
`(1000, 0)` to `(0, 0)` — contradicting the spec's InvalidPriceError policy and
its own conservation property (§8). -/
theorem buy_at_zero_price_wipes_cash :
    (on_signal { cash := 1000, position := 0 } 1 0).state
        = { cash := 0, position := 0 } ∧
    (on_signal { cash := 1000, position := 0 } 1 0).trade
        = some { trade_type := .buy, price := 0, shares := 0 } := by
  norm_num [on_signal]

/-- **C6** (confirmed): loading a state file with unparsable contents returns
`none` — exactly as for an absent file, with no exception escaping
(`load_portfolio_state` is total and `Option`-valued, modelling the catch-all
at src/backend/paper_trading.py lines 27-33) — and `PaperTrader.__init__` then
starts from the fresh Flat state `cash = initial_cash, position = 0`. -/
theorem corrupt_state_file_fresh_start (initial_cash : ℚ) :
    load_portfolio_state .corrupt = none ∧
    (paper_trader_init initial_cash .corrupt).1
        = { cash := initial_cash, position := 0 } :=
  ⟨rfl, rfl⟩

/-- **C7** (confirmed): when the write/fsync/replace sequence of
`save_portfolio_state` fails, the call returns `false` rather than raising, the
temporary file is removed, the durable target is untouched, and the in-memory
portfolio state observed immediately after the failed save is exactly the
post-transition state — identical to what it would be had the save succeeded. -/
theorem save_failure_keeps_state (s : PortState) (sig : Int) (price : ℚ) (fs : StoreFs) :
    (on_signal_persist s sig price fs false).2.1 = false ∧
    (on_signal_persist s sig price fs false).2.2.tmp_exists = false ∧
    (on_signal_persist s sig price fs false).2.2.target = fs.target ∧
    (on_signal_persist s sig price fs false).1 = (on_signal s sig price).state ∧
    (on_signal_persist s sig price fs false).1 = (on_signal_persist s sig price fs true).1 :=
  ⟨rfl, rfl, rfl, rfl, rfl⟩

/-- **C10** (confirmed): for a sell executed while long, the ledger row built
by `log_trade` carries `cash_after = position * price` (the proceeds) but
`position_after = ` the pre-sale share count, because `self.position = 0.0`
runs only after `log_trade` — even though the post-transition position is `0`.
For a buy executed while flat, `cash_after` and `position_after` both equal the
post-transition state. -/
theorem sell_ledger_presale_position (s : PortState) (price : ℚ) :
    (0 < s.position →
      (on_signal s (-1) price).ledger
          = some { trade_type := .sell, price := price, shares := s.position,
                   cash_after := s.position * price, position_after := s.position } ∧
      (on_signal s (-1) price).state.position = 0) ∧
    (s.position = 0 →
      (on_signal s 1 price).ledger
          = some { trade_type := .buy, price := price,
                   shares := if 0 < price then s.cash / price else 0,
                   cash_after := (on_signal s 1 price).state.cash,
                   position_after := (on_signal s 1 price).state.position }) := by
  constructor
  · intro hpos
    unfold on_signal
    rw [if_neg (fun h => absurd h.1 (by decide)),
      if_pos (show (-1 : Int) = -1 ∧ 0 < s.position from ⟨rfl, hpos⟩)]
    exact ⟨rfl, rfl⟩
  · intro hflat
    unfold on_signal
    rw [if_pos (show (1 : Int) = 1 ∧ s.position = 0 from ⟨rfl, hflat⟩)]

theorem sell_ledger_presale_position_witness :
    (on_signal { cash := 0, position := 5 } (-1) 2).ledger
        = some { trade_type := .sell, price := 2, shares := 5,
                 cash_after := 5 * 2, position_after := 5 } ∧
    (on_signal { cash := 0, position := 5 } (-1) 2).state.position = 0 ∧
    (on_signal { cash := 100, position := 0 } 1 4).ledger
        = some { trade_type := .buy, price := 4,
                 shares := if (0 : ℚ) < 4 then 100 / 4 else 0,
                 cash_after := (on_signal { cash := 100, position := 0 } 1 4).state.cash,
                 position_after := (on_signal { cash := 100, position := 0 } 1 4).state.position } := by
  refine ⟨?_, ?_, ?_⟩
  · exact ((sell_ledger_presale_position { cash := 0, position := 5 } 2).1 (by norm_num)).1
  · exact ((sell_ledger_presale_position { cash := 0, position := 5 } 2).1 (by norm_num)).2
  · exact (sell_ledger_presale_position { cash := 100, position := 0 } 4).2 rfl

theorem on_signal_snapshot_equity (s : PortState) (sig : Int) (price : ℚ) :
    (on_signal s sig price).snapshot.equity
      = (on_signal s sig price).snapshot.cash
        + (on_signal s sig price).snapshot.position_shares
          * (on_signal s sig price).snapshot.last_price := by
  unfold on_signal
  split_ifs <;> rfl

/-- **C5 counterexample**: feeding a single bar (hold signal, close 10) through
`run_strategy`'s per-bar loop records **two** equity snapshots for that bar —
one from inside `on_signal` (line 221) and a second from the loop body
(line 268) — not exactly one as claimed. -/
theorem snapshot_count_two_for_one_bar :
    (run_strategy_loop { cash := 1000, position := 0 } [(0, 10)]).2.length ≠ 1 ∧
    (run_strategy_loop { cash := 1000, position := 0 } [(0, 10)]).2.length = 2 := by
  constructor <;> simp [run_strategy_loop]

/-- **C5 (amended)**: for every bar fed through the Simulation Driver's per-bar
loop, exactly **two** EquitySnapshots are recorded for that bar, whether or not
a trade occurred — one by `on_signal` itself and one by `run_strategy`'s loop
body — and every recorded snapshot satisfies
`equity = cash + position_shares * last_price` with the post-transition state
and that bar's close. -/
theorem two_snapshots_per_bar (s : PortState) (bars : List (Int × ℚ)) :
    (run_strategy_loop s bars).2.length = 2 * bars.length ∧
    (run_strategy_loop s bars).2.all
        (fun snap => decide (snap.equity
            = snap.cash + snap.position_shares * snap.last_price)) = true := by
  induction bars generalizing s with
  | nil => exact ⟨rfl, rfl⟩
  | cons b rest ih =>
    obtain ⟨sig, price⟩ := b
    obtain ⟨ih1, ih2⟩ := ih (on_signal s sig price).state
    refine ⟨?_, ?_⟩
    · simp only [run_strategy_loop, List.length_cons, ih1]
      omega
    · simp only [run_strategy_loop, List.all_cons, ih2, Bool.and_true]
      rw [Bool.and_eq_true]
      refine ⟨decide_eq_true (on_signal_snapshot_equity s sig price), ?_⟩
      simp

theorem init_effects_no_db (initial_cash : ℚ) (file : FileContent) :
    EngineEffect.db_write ∉ (paper_trader_init initial_cash file).2.2 ∧
    EngineEffect.bar_processed ∉ (paper_trader_init initial_cash file).2.2 := by
  cases file <;>
    simp [paper_trader_init, load_portfolio_state, create_initial_state_file]

/-- **C8 (amended)**: running the engine with an unrecognized strategy
identifier fails with the `ValueError("Unknown strategy")` raised by
`run_strategy` **before any bar is processed and before any database row is
written** — but not before the portfolio state file is touched: the state file
is read (and created when missing) by `PaperTrader.__init__`, which the
`/api/run_strategy` path executes before the strategy-name check
(`unknown_strategy_touches_state_file`). -/
theorem unknown_strategy_stops_before_run (strategy : String) (initial_cash : ℚ)
    (file : FileContent) (nbars : ℕ)
    (h1 : strategy ≠ "sma_crossover") (h2 : strategy ≠ "rsi") :
    (run_engine strategy initial_cash file nbars).1 = .error "Unknown strategy" ∧
    EngineEffect.db_write ∉ (run_engine strategy initial_cash file nbars).2 ∧
    EngineEffect.bar_processed ∉ (run_engine strategy initial_cash file nbars).2 := by
  have hno : ¬(strategy = "sma_crossover" ∨ strategy = "rsi") := by
    rintro (h | h)
    · exact h1 h
    · exact h2 h
  have herr : run_strategy_effects strategy nbars = .error "Unknown strategy" := by
    unfold run_strategy_effects
    rw [if_neg hno]
  unfold run_engine
  rw [herr]
  exact ⟨rfl, (init_effects_no_db initial_cash file).1,
    (init_effects_no_db initial_cash file).2⟩

theorem unknown_strategy_stops_before_run_witness :
    (run_engine "bogus" 10000 .absent 5).1 = .error "Unknown strategy" ∧
    EngineEffect.db_write ∉ (run_engine "bogus" 10000 .absent 5).2 ∧
    EngineEffect.bar_processed ∉ (run_engine "bogus" 10000 .absent 5).2 :=
  unknown_strategy_stops_before_run "bogus" 10000 .absent 5 (by decide) (by decide)

/-- **C8 counterexample**: with no state file present, running the engine with
the unknown strategy name `"bogus"` still creates the portfolio state file
(`PaperTrader.__init__` runs `create_initial_state_file` before `run_strategy`
validates the name), so state *is* touched, contradicting "no portfolio state
file is read or created". -/
theorem unknown_strategy_touches_state_file :
    (run_engine "bogus" 10000 FileContent.absent 5).2 = [EngineEffect.state_file_create] ∧
    EngineEffect.state_file_create ∈ (run_engine "bogus" 10000 FileContent.absent 5).2 := by
  constructor <;>
    simp [run_engine, run_strategy_effects, paper_trader_init, load_portfolio_state,
      create_initial_state_file]

theorem backtest_loop_agrees (bars : List (Int × ℚ)) :
    ∀ cash position : ℚ, (∀ b ∈ bars, 0 < b.2) →
      (simple_backtest_loop cash position bars).cash
          = (on_signal_run { cash := cash, position := position } bars).1.cash ∧
      (simple_backtest_loop cash position bars).position
          = (on_signal_run { cash := cash, position := position } bars).1.position ∧
      (simple_backtest_loop cash position bars).trades
          = (on_signal_run { cash := cash, position := position } bars).2 := by
  induction bars with
  | nil => exact fun c p _ => ⟨rfl, rfl, rfl⟩
  | cons b rest ih =>
    intro c p hp
    obtain ⟨sig, price⟩ := b
    have hp0 : 0 < price := hp (sig, price) (List.mem_cons_self _ _)
    have hprest : ∀ x ∈ rest, 0 < x.2 := fun x hx => hp x (List.mem_cons_of_mem _ hx)
    simp only [simple_backtest_loop, on_signal_run, on_signal, Option.toList,
      List.singleton_append]
    rw [if_pos hp0]
    split_ifs with h1 h2
    · obtain ⟨e1, e2, e3⟩ := ih 0 (c / price) hprest
      exact ⟨e1, e2, by rw [e3]; rfl⟩
    · obtain ⟨e1, e2, e3⟩ := ih (p * price) 0 hprest
      exact ⟨e1, e2, by rw [e3]; rfl⟩
    · exact ih c p hprest

/-- **C9 (amended)**: the batch path (`simple_backtest`) and the incremental
path (`PaperTrader.on_signal` iterated over the bars) are behaviorally
equivalent — same final cash, same final position, same trades (types, prices,
share counts, in order) — for the same initial cash, close sequence and signal
sequence, **provided every close price is positive**.  At a non-positive close
the two paths diverge (`backtest_on_signal_diverge_at_negative_price`):
`on_signal` guards the buy with `price > 0` while `simple_backtest` does not. -/
theorem backtest_equiv_on_signal (initial_cash : ℚ) (bars : List (Int × ℚ))
    (hp : ∀ b ∈ bars, 0 < b.2) :
    (simple_backtest initial_cash bars).cash
        = (on_signal_run { cash := initial_cash, position := 0 } bars).1.cash ∧
    (simple_backtest initial_cash bars).position
        = (on_signal_run { cash := initial_cash, position := 0 } bars).1.position ∧
    (simple_backtest initial_cash bars).trades
        = (on_signal_run { cash := initial_cash, position := 0 } bars).2 :=
  backtest_loop_agrees bars initial_cash 0 hp

theorem backtest_equiv_on_signal_witness :
    (simple_backtest 100 [(1, 10), (-1, 20)]).cash
        = (on_signal_run { cash := 100, position := 0 } [(1, 10), (-1, 20)]).1.cash ∧
    (simple_backtest 100 [(1, 10), (-1, 20)]).position
        = (on_signal_run { cash := 100, position := 0 } [(1, 10), (-1, 20)]).1.position ∧
    (simple_backtest 100 [(1, 10), (-1, 20)]).trades
        = (on_signal_run { cash := 100, position := 0 } [(1, 10), (-1, 20)]).2 :=
  backtest_equiv_on_signal 100 [(1, 10), (-1, 20)] (by norm_num)

/-- **C9 counterexample**: buy signal at close `-1` with cash 100.
`simple_backtest` executes the unguarded `position = cash / price`, ending with
position `-100` and a buy trade of `-100` shares; `on_signal`'s guarded branch
buys `0` shares and ends with position `0`.  Final positions and trade lists
differ, refuting unconditional equivalence. -/
theorem backtest_on_signal_diverge_at_negative_price :
    (simple_backtest 100 [(1, -1)]).position
        ≠ (on_signal_run { cash := 100, position := 0 } [(1, -1)]).1.position ∧
    (simple_backtest 100 [(1, -1)]).trades
        ≠ (on_signal_run { cash := 100, position := 0 } [(1, -1)]).2 := by
  constructor <;>
    norm_num [simple_backtest, simple_backtest_loop, on_signal_run, on_signal,
      Option.toList]

theorem threshold_raw_eq_spec (r : Option ℚ) :
    threshold_raw_signal r = spec_threshold_signal r := by
  cases r with
  | none => rfl
  | some v =>
    show (if 70 ≤ v then (-1 : Int) else if v ≤ 30 then 1 else 0)
        = if v ≤ 30 then (1 : Int) else if 70 ≤ v then -1 else 0
    split_ifs <;> first | rfl | linarith

theorem rsi_raw_signals_length (closes : List ℚ) :
    (rsi_raw_signals closes).length = closes.length := by
  simp [rsi_raw_signals]

theorem rsi_raw_signals_getD (closes : List ℚ) (i : ℕ) (hi : i < closes.length) :
    (rsi_raw_signals closes).getD i 0 = threshold_raw_signal (rsi_at closes 14 i) := by
  unfold rsi_raw_signals
  rw [List.getD_eq_getElem?_getD, List.getElem?_map, List.getElem?_range hi]
  rfl

theorem getD_set_eq_ite (l : List Int) (m i : ℕ) (a : Int) :
    (l.set m a).getD i 0 = if m = i ∧ m < l.length then a else l.getD i 0 := by
  induction l generalizing m i with
  | nil => simp
  | cons x xs ih =>
    cases m with
    | zero =>
      cases i with
      | zero => simp
      | succ i' => simp
    | succ m' =>
      cases i with
      | zero => simp
      | succ i' =>
        simpa [Nat.succ_lt_succ_iff] using ih m' i'

theorem rsi_strategy_eq_of_none (closes : List ℚ)
    (h : (rsi_raw_signals closes).findIdx? (fun s => s != 0) = none) :
    rsi_strategy closes = rsi_raw_signals closes := by
  unfold rsi_strategy
  rw [h]

theorem rsi_strategy_eq_of_some (closes : List ℚ) (k : ℕ)
    (h : (rsi_raw_signals closes).findIdx? (fun s => s != 0) = some k) :
    rsi_strategy closes
      = if (rsi_raw_signals closes).getD k 0 = -1 ∧ 1 ≤ k
          then (rsi_raw_signals closes).set (k - 1) 1
          else rsi_raw_signals closes := by
  unfold rsi_strategy
  rw [h]

theorem forced_buy_bar_of_none (closes : List ℚ) (i : ℕ)
    (h : (rsi_raw_signals closes).findIdx? (fun s => s != 0) = none) :
    forced_buy_bar closes i = false := by
  unfold forced_buy_bar
  rw [h]

theorem forced_buy_bar_of_some (closes : List ℚ) (i k : ℕ)
    (h : (rsi_raw_signals closes).findIdx? (fun s => s != 0) = some k) :
    forced_buy_bar closes i
      = (decide ((rsi_raw_signals closes).getD k 0 = -1) && decide (i + 1 = k)) := by
  unfold forced_buy_bar
  rw [h]

/-- **C4 (amended)**: at every bar the RSI strategy's signal is exactly the
threshold rule — Buy iff the 14-period RSI is ≤ 30, Sell iff it is ≥ 70, Hold
otherwise and throughout the warm-up where the RSI is undefined — **except** at
the single bar immediately preceding the first bar whose threshold signal is
nonzero, when that first signal is a Sell: there `rsi_strategy` forcibly
overwrites the signal to Buy (src/backend/strategies.py lines 34-42),
regardless of that bar's RSI (`rsi_forced_buy_on_undefined_rsi`). -/
theorem rsi_signal_matches_thresholds (closes : List ℚ) (i : ℕ) (hi : i < closes.length) :
    (forced_buy_bar closes i = false →
        (rsi_strategy closes).getD i 0 = spec_threshold_signal (rsi_at closes 14 i)) ∧
    (forced_buy_bar closes i = true → (rsi_strategy closes).getD i 0 = 1) := by
  have hraw : (rsi_raw_signals closes).getD i 0 = threshold_raw_signal (rsi_at closes 14 i) :=
    rsi_raw_signals_getD closes i hi
  have hilen : i < (rsi_raw_signals closes).length := by
    rw [rsi_raw_signals_length]
    exact hi
  cases hfind : (rsi_raw_signals closes).findIdx? (fun s => s != 0) with
  | none =>
    rw [rsi_strategy_eq_of_none closes hfind, forced_buy_bar_of_none closes i hfind]
    exact ⟨fun _ => by rw [hraw, threshold_raw_eq_spec],
      fun hfb => Bool.noConfusion hfb⟩
  | some k =>
    rw [rsi_strategy_eq_of_some closes k hfind, forced_buy_bar_of_some closes i k hfind]
    constructor
    · intro hfb
      split_ifs with hcond
      · obtain ⟨hneg, hk1⟩ := hcond
        by_cases hik : i + 1 = k
        · rw [hneg, hik] at hfb
          simp at hfb
        · rw [getD_set_eq_ite, if_neg]
          · rw [hraw, threshold_raw_eq_spec]
          · rintro ⟨he, -⟩
            omega
      · rw [hraw, threshold_raw_eq_spec]
    · intro hfb
      rw [Bool.and_eq_true, decide_eq_true_eq, decide_eq_true_eq] at hfb
      obtain ⟨hneg, hik⟩ := hfb
      rw [if_pos ⟨hneg, by omega⟩, getD_set_eq_ite, if_pos ⟨by omega, by omega⟩]

theorem rsi_signal_matches_thresholds_witness :
    (rsi_strategy [1, 2, 3]).getD 0 0 = spec_threshold_signal (rsi_at [1, 2, 3] 14 0) :=
  (rsi_signal_matches_thresholds [1, 2, 3] 0 (by norm_num)).1 (by norm_num [forced_buy_bar,
    rsi_raw_signals, rsi_at, threshold_raw_signal, List.findIdx?])

theorem rsi_cex_warmup (i : ℕ) (hi : i + 1 < 14) : rsi_at rsi_cex_closes 14 i = none := by
  unfold rsi_at
  rw [if_pos (Or.inr hi)]

theorem rsi_cex_at_13 : rsi_at rsi_cex_closes 14 13 = some 100 := by
  have hcond : ¬(rsi_cex_closes.length ≤ 13 ∨ 13 + 1 < 14) := by
    norm_num [rsi_cex_closes]
  have hd : down_moves rsi_cex_closes = [0, 0, 0, 0, 0, 0, 0, 0, 0, 0, 0, 0, 0, 0] := by
    norm_num [down_moves, rsi_cex_closes]
  have he : ewm_alpha ((1 : ℚ) / (14 : ℕ)) [0, 0, 0, 0, 0, 0, 0, 0, 0, 0, 0, 0, 0, 0]
      = [0, 0, 0, 0, 0, 0, 0, 0, 0, 0, 0, 0, 0, 0] := by
    norm_num [ewm_alpha, List.scanl]
  unfold rsi_at
  rw [if_neg hcond, hd, he]
  norm_num [List.getD]

theorem rsi_cex_raw :
    rsi_raw_signals rsi_cex_closes = [0, 0, 0, 0, 0, 0, 0, 0, 0, 0, 0, 0, 0, -1] := by
  have hlen : rsi_cex_closes.length = 14 := by norm_num [rsi_cex_closes]
  have hrange : List.range 14 = [0, 1, 2, 3, 4, 5, 6, 7, 8, 9, 10, 11, 12, 13] := by decide
  unfold rsi_raw_signals
  rw [hlen, hrange]
  simp only [List.map_cons, List.map_nil, rsi_cex_at_13,
    rsi_cex_warmup 0 (by norm_num), rsi_cex_warmup 1 (by norm_num),
    rsi_cex_warmup 2 (by norm_num), rsi_cex_warmup 3 (by norm_num),
    rsi_cex_warmup 4 (by norm_num), rsi_cex_warmup 5 (by norm_num),
    rsi_cex_warmup 6 (by norm_num), rsi_cex_warmup 7 (by norm_num),
    rsi_cex_warmup 8 (by norm_num), rsi_cex_warmup 9 (by norm_num),
    rsi_cex_warmup 10 (by norm_num), rsi_cex_warmup 11 (by norm_num),
    rsi_cex_warmup 12 (by norm_num)]
  norm_num [threshold_raw_signal]

/-- **C4 counterexample**: with the 14 strictly increasing closes
`[1, 2, ..., 14]` every move is a gain, so the first defined RSI value
(bar 13) is 100 and the threshold signal there is Sell; that Sell is the first
nonzero signal, so `rsi_strategy` forcibly sets bar 12's signal to Buy — yet
bar 12 lies in the warm-up window where the RSI is undefined (NaN), which the
claim says must map to Hold and never to Buy. -/
theorem rsi_forced_buy_on_undefined_rsi :
    rsi_at rsi_cex_closes 14 12 = none ∧
    (rsi_strategy rsi_cex_closes).getD 12 0 = 1 := by
  constructor
  · exact rsi_cex_warmup 12 (by norm_num)
  · unfold rsi_strategy
    rw [rsi_cex_raw]
    decide
